import Mathlib

/-!
# Verification of `hw_ui_pixelcontroller.ino`

Shallow embedding of the jumper-driven LED pixel controller: the selector
state machine (`gCurrentPatternNumber`, `gCycle`, `gHue`), the active-low
pin scan `functionSelect`, the combinational brightness formula, the two
periodic timer actions, and the six pattern renderers acting on the pixel
buffer.

Digital pin reads are modelled as a function `read : Nat → Bool` giving the
sampled logic level of each pin for the current frame (`true` = HIGH =
floating with pull-up, `false` = LOW = grounded).  The pixel buffer `leds`
is modelled as a function `Nat → Pixel`; the C array has `NUM_LEDS = 50`
elements, so only indices below 50 are meaningful.
-/

namespace PixelController

/-- `#define BASE_FSEL_PIN 2` -/
def BASE_FSEL_PIN : Nat := 2

/-- `#define BSEL_PIN1 10` -/
def BSEL_PIN1 : Nat := 10

/-- `#define BSEL_PIN2 11` -/
def BSEL_PIN2 : Nat := 11

/-- `#define NUM_LEDS 50` -/
def NUM_LEDS : Nat := 50

/-- `ARRAY_SIZE(gPatterns)`: the registry `{ red, multi, blue, green, white, rainbow }`
has 6 entries. -/
def NUM_PATTERNS : Nat := 6

/-- The global selector state: `gCurrentPatternNumber`, `gCycle`, `gHue`,
all `uint8_t` (kept as `Nat`, reduced mod 256 wherever the C code can
overflow). -/
structure State where
  gCurrentPatternNumber : Nat
  gCycle : Nat
  gHue : Nat
deriving DecidableEq, Repr

/-- The initial values of the three globals:
`uint8_t gCurrentPatternNumber = 0; uint8_t gCycle = 0; uint8_t gHue = 0;`. -/
def initState : State := ⟨0, 0, 0⟩

/-- The C code tests the cycle flag with `if(!gCycle)`, so "auto-cycle
enabled" means `gCycle` nonzero. -/
def cycleEnabled (s : State) : Prop := s.gCycle ≠ 0

instance (s : State) : Decidable (cycleEnabled s) := by
  unfold cycleEnabled; infer_instance

/-- The loop body of `functionSelect`: `k` pins remain to scan, `i` is the
current loop counter.  `if(!digitalRead(BASE_FSEL_PIN+i)) return i;`. -/
def fselScan (read : Nat → Bool) : Nat → Nat → Int
  | 0, _ => -1
  | k + 1, i => if read (BASE_FSEL_PIN + i) = false then (i : Int) else fselScan read k (i + 1)

/-- `int8_t functionSelect(void)`: scan the `ARRAY_SIZE(gPatterns) = 6`
function-select pins starting at `BASE_FSEL_PIN`, returning the loop index
of the first pin reading LOW, or `-1` if none does. -/
def functionSelect (read : Nat → Bool) : Int :=
  fselScan read NUM_PATTERNS 0

/-- `void nextPattern()`: `if(!gCycle) return;` then
`gCurrentPatternNumber = (gCurrentPatternNumber + 1) % ARRAY_SIZE(gPatterns);`. -/
def nextPattern (s : State) : State :=
  if s.gCycle = 0 then s
  else { s with gCurrentPatternNumber := (s.gCurrentPatternNumber + 1) % NUM_PATTERNS }

/-- The function-selection section of `loop()` (lines 99–109): run
`functionSelect`; on `-1` take the cycle-enable edge (set `gCycle = 1`,
reset the index to 0, call `nextPattern()`) only if the cycle flag was 0;
otherwise clear the cycle flag and set the index from the pin offset. -/
def loopSelect (read : Nat → Bool) (s : State) : State :=
  let function := functionSelect read
  if function = -1 then
    if s.gCycle = 0 then
      nextPattern { s with gCycle := 1, gCurrentPatternNumber := 0 }
    else s
  else
    { s with gCycle := 0, gCurrentPatternNumber := function.toNat }

/-- The brightness computation of `loop()` (line 112):
`(((~digitalRead(BSEL_PIN2)) & 0x01) << 7) | (((~digitalRead(BSEL_PIN1)) & 0x01) << 6) | 0x3F`.
`digitalRead` yields 1 (HIGH) or 0 (LOW); `~x & 1` is therefore `1 - x`. -/
def loopBrightness (read : Nat → Bool) : Nat :=
  (((if read BSEL_PIN2 then 0 else 1) <<< 7) |||
   ((if read BSEL_PIN1 then 0 else 1) <<< 6)) ||| 0x3F

/-- The body of `EVERY_N_MILLISECONDS( 20 ) { gHue++; }`: an 8-bit
increment of the rotating hue. -/
def hueTick (s : State) : State :=
  { s with gHue := (s.gHue + 1) % 256 }

/-- An RGB pixel value.  `CRGB(a,b,c)` and `setRGB(a,b,c)` both store the
triple componentwise. -/
structure Pixel where
  r : Nat
  g : Nat
  b : Nat
deriving DecidableEq, Repr

/-- `leds[i] = c` on the buffer modelled as a function. -/
def setPix (leds : Nat → Pixel) (i : Nat) (c : Pixel) : Nat → Pixel :=
  fun j => if j = i then c else leds j

/-- The common loop shape `for(int i = 0; i < NUM_LEDS; i++) leds[i] = body(i);`
shared by every pattern renderer. -/
def fillAll (body : Nat → Pixel) (leds : Nat → Pixel) : Nat → Pixel :=
  (List.range NUM_LEDS).foldl (fun b i => setPix b i (body i)) leds

/-- `void red()`: every element set with `setRGB(0,255,0)`. -/
def red (leds : Nat → Pixel) : Nat → Pixel :=
  fillAll (fun _ => ⟨0, 255, 0⟩) leds

/-- `void green()`: every element set with `setRGB(255,0,0)`. -/
def green (leds : Nat → Pixel) : Nat → Pixel :=
  fillAll (fun _ => ⟨255, 0, 0⟩) leds

/-- `void blue()`: every element set with `setRGB(0,0,255)`. -/
def blue (leds : Nat → Pixel) : Nat → Pixel :=
  fillAll (fun _ => ⟨0, 0, 255⟩) leds

/-- `void white()`: every element set with `setRGB(255,255,255)`. -/
def white (leds : Nat → Pixel) : Nat → Pixel :=
  fillAll (fun _ => ⟨255, 255, 255⟩) leds

/-- The per-index color of `void multi()`: `switch(i % 5)` over five fixed
colors. -/
def multiColor (i : Nat) : Pixel :=
  match i % 5 with
  | 0 => ⟨80, 255, 0⟩
  | 1 => ⟨0, 0, 255⟩
  | 2 => ⟨255, 0, 0⟩
  | 3 => ⟨0, 100, 255⟩
  | _ => ⟨0, 255, 0⟩

/-- `void multi()`: every element set from the `switch(i % 5)` table. -/
def multi (leds : Nat → Pixel) : Nat → Pixel :=
  fillAll multiColor leds

/-- Modelled from the spec: `fill_rainbow(leds, NUM_LEDS, gHue, 7)` is
FastLED library code absent from this repository.  Per the library's
documented behavior it writes, to each index `i`, the RGB conversion of the
HSV color with hue `gHue + i*7` (8-bit), full value and high saturation.
Only its full-overwrite contract matters for the claims, so the written
pixel is modelled as the HSV triple recorded componentwise. -/
def rainbowColor (hue i : Nat) : Pixel :=
  ⟨(hue + i * 7) % 256, 240, 255⟩

/-- `void rainbow()`: delegates to `fill_rainbow(leds, NUM_LEDS, gHue, 7)`,
which assigns every one of the `NUM_LEDS` elements. -/
def rainbow (hue : Nat) (leds : Nat → Pixel) : Nat → Pixel :=
  fillAll (rainbowColor hue) leds

/-- The registry `SimplePatternList gPatterns = { red, multi, blue, green, white, rainbow };`
as an index-based dispatch; each renderer reads the rotating hue (only
`rainbow` uses it) and rewrites the pixel buffer.  An index outside the
registry would be out-of-bounds in the C code; it is mapped to the identity
here and never arises (see the index invariant). -/
def runPattern : Nat → Nat → (Nat → Pixel) → (Nat → Pixel)
  | 0 => fun _ leds => red leds
  | 1 => fun _ leds => multi leds
  | 2 => fun _ leds => blue leds
  | 3 => fun _ leds => green leds
  | 4 => fun _ leds => white leds
  | 5 => fun hue leds => rainbow hue leds
  | _ => fun _ leds => leds

/-- The result of one `loop()` iteration: the selector state after the
frame, the pixel buffer handed to `FastLED.show()`, and the brightness
passed to `FastLED.setBrightness`. -/
structure FrameOut where
  state : State
  leds : Nat → Pixel
  brightness : Nat

/-- One iteration of `void loop()` in source order: function selection,
brightness computation, pattern render into `leds`, then the two polled
timers — `EVERY_N_MILLISECONDS( 20 ) { gHue++; }` and
`EVERY_N_SECONDS( 60 ) { nextPattern(); }` — whose due-ness this frame is
given by `hueDue` and `patDue`. -/
def loopFrame (read : Nat → Bool) (hueDue patDue : Bool) (s : State)
    (leds : Nat → Pixel) : FrameOut :=
  let s1 := loopSelect read s
  let b := loopBrightness read
  let leds1 := runPattern s1.gCurrentPatternNumber s1.gHue leds
  let s2 := if hueDue then hueTick s1 else s1
  let s3 := if patDue then nextPattern s2 else s2
  ⟨s3, leds1, b⟩

/-! ## Helper lemmas about the pin scan -/

/-- If every remaining pin reads HIGH, the scan falls through and returns `-1`. -/
lemma fselScan_none (read : Nat → Bool) :
    ∀ k i, (∀ d, d < k → read (BASE_FSEL_PIN + (i + d)) = true) →
      fselScan read k i = -1 := by
  intro k
  induction k with
  | zero => intro i _; rfl
  | succ k ih =>
    intro i h
    have h0 : read (BASE_FSEL_PIN + i) = true := by
      have := h 0 (Nat.succ_pos k)
      simpa using this
    rw [fselScan]
    rw [h0]
    simp only [Bool.true_eq_false, if_false]
    apply ih
    intro d hd
    have heq : i + 1 + d = i + (d + 1) := by omega
    rw [heq]
    exact h (d + 1) (by omega)

/-- If pin `i + d` is the first remaining pin reading LOW, the scan stops
there and returns its loop index. -/
lemma fselScan_found (read : Nat → Bool) :
    ∀ k i d, d < k → read (BASE_FSEL_PIN + (i + d)) = false →
      (∀ e, e < d → read (BASE_FSEL_PIN + (i + e)) = true) →
      fselScan read k i = ((i + d : Nat) : Int) := by
  intro k
  induction k with
  | zero => intro i d hd _ _; omega
  | succ k ih =>
    intro i d hd hlow hmin
    rw [fselScan]
    cases d with
    | zero =>
      have h0 : read (BASE_FSEL_PIN + i) = false := by simpa using hlow
      rw [h0]
      simp
    | succ d =>
      have h0 : read (BASE_FSEL_PIN + i) = true := by
        have := hmin 0 (Nat.succ_pos d)
        simpa using this
      rw [h0]
      simp only [Bool.true_eq_false, if_false]
      have heq : i + (d + 1) = i + 1 + d := by omega
      rw [heq] at hlow ⊢
      apply ih (i + 1) d (by omega)
      · exact hlow
      · intro e he
        have heq2 : i + 1 + e = i + (e + 1) := by omega
        rw [heq2]
        exact hmin (e + 1) (by omega)

/-- The scan result is `-1` or a loop index below `i + k`. -/
lemma fselScan_bound (read : Nat → Bool) :
    ∀ k i, fselScan read k i = -1 ∨
      (0 ≤ fselScan read k i ∧ fselScan read k i < ((i + k : Nat) : Int)) := by
  intro k
  induction k with
  | zero => intro i; exact Or.inl rfl
  | succ k ih =>
    intro i
    rw [fselScan]
    by_cases h : read (BASE_FSEL_PIN + i) = false
    · rw [if_pos h]
      right
      constructor
      · exact Int.natCast_nonneg i
      · have : i < i + (k + 1) := by omega
        exact_mod_cast this
    · rw [if_neg h]
      rcases ih (i + 1) with h1 | ⟨h2, h3⟩
      · exact Or.inl h1
      · right
        refine ⟨h2, ?_⟩
        have heq : i + 1 + k = i + (k + 1) := by omega
        rw [heq] at h3
        exact h3

/-- `functionSelect` returns `-1` exactly when no function pin is grounded;
specialization of `fselScan_none` at loop start. -/
lemma functionSelect_none (read : Nat → Bool)
    (h : ∀ i, i < NUM_PATTERNS → read (BASE_FSEL_PIN + i) = true) :
    functionSelect read = -1 := by
  apply fselScan_none
  intro d hd
  simpa using h d hd

/-- `functionSelect` returns the index of the lowest grounded function pin. -/
lemma functionSelect_found (read : Nat → Bool) (d : Nat) (hd : d < NUM_PATTERNS)
    (hlow : read (BASE_FSEL_PIN + d) = false)
    (hmin : ∀ e, e < d → read (BASE_FSEL_PIN + e) = true) :
    functionSelect read = (d : Int) := by
  have := fselScan_found read NUM_PATTERNS 0 d hd (by simpa using hlow)
    (by intro e he; simpa using hmin e he)
  simpa using this

/-- The result of `functionSelect` is `-1` or a valid registry index. -/
lemma functionSelect_bound (read : Nat → Bool) :
    functionSelect read = -1 ∨
      (0 ≤ functionSelect read ∧ functionSelect read < (NUM_PATTERNS : Int)) := by
  have := fselScan_bound read NUM_PATTERNS 0
  simpa [functionSelect] using this

/-! ## Helper lemmas about the selector state machine -/

/-- `nextPattern` keeps the index below the registry size. -/
lemma nextPattern_index_lt (s : State)
    (hs : s.gCurrentPatternNumber < NUM_PATTERNS) :
    (nextPattern s).gCurrentPatternNumber < NUM_PATTERNS := by
  unfold nextPattern
  split
  · exact hs
  · exact Nat.mod_lt _ (by decide)

/-- `nextPattern` never touches the hue. -/
lemma nextPattern_gHue (s : State) : (nextPattern s).gHue = s.gHue := by
  unfold nextPattern; split <;> rfl

/-- `nextPattern` never touches the cycle flag. -/
lemma nextPattern_gCycle (s : State) : (nextPattern s).gCycle = s.gCycle := by
  unfold nextPattern; split <;> rfl

/-- The selection section of `loop()` never touches the hue. -/
lemma loopSelect_gHue (read : Nat → Bool) (s : State) :
    (loopSelect read s).gHue = s.gHue := by
  unfold loopSelect
  dsimp only
  split
  · split
    · rw [nextPattern_gHue]
    · rfl
  · rfl

/-- With no function pin grounded and the cycle flag clear, the selection
section takes the enable edge: flag set, index reset to 0, then one
`nextPattern()` advance to 1. -/
lemma loopSelect_edge (read : Nat → Bool) (s : State)
    (hno : ∀ i, i < NUM_PATTERNS → read (BASE_FSEL_PIN + i) = true)
    (hc : s.gCycle = 0) :
    loopSelect read s = ⟨1, 1, s.gHue⟩ := by
  unfold loopSelect
  rw [functionSelect_none read hno]
  simp [hc, nextPattern, NUM_PATTERNS]

/-- With no function pin grounded and the cycle flag already set, the
selection section leaves the state untouched. -/
lemma loopSelect_steady (read : Nat → Bool) (s : State)
    (hno : ∀ i, i < NUM_PATTERNS → read (BASE_FSEL_PIN + i) = true)
    (hc : s.gCycle ≠ 0) :
    loopSelect read s = s := by
  unfold loopSelect
  rw [functionSelect_none read hno]
  simp [hc]

/-- With the lowest grounded function pin at offset `d`, the selection
section clears the cycle flag and loads `d` as the pattern index. -/
lemma loopSelect_override (read : Nat → Bool) (s : State) (d : Nat)
    (hd : d < NUM_PATTERNS) (hlow : read (BASE_FSEL_PIN + d) = false)
    (hmin : ∀ e, e < d → read (BASE_FSEL_PIN + e) = true) :
    loopSelect read s = ⟨d, 0, s.gHue⟩ := by
  unfold loopSelect
  rw [functionSelect_found read d hd hlow hmin]
  have hne : (d : Int) ≠ -1 := by omega
  simp [hne]

/-! ## Helper lemmas about the pixel buffer fill loops -/

/-- Running the fill loop over `List.range n` writes `body i` at every
index below `n` and leaves the rest of the buffer alone. -/
lemma foldl_setPix_range (body : Nat → Pixel) (leds : Nat → Pixel) :
    ∀ n j, ((List.range n).foldl (fun b i => setPix b i (body i)) leds) j
      = if j < n then body j else leds j := by
  intro n
  induction n with
  | zero => intro j; simp
  | succ n ih =>
    intro j
    rw [List.range_succ, List.foldl_append]
    simp only [List.foldl_cons, List.foldl_nil]
    by_cases hj : j = n
    · subst hj
      simp [setPix]
    · rw [setPix, if_neg hj, ih j]
      by_cases h : j < n
      · rw [if_pos h, if_pos (by omega)]
      · rw [if_neg h, if_neg (by omega)]

/-- Pointwise description of `fillAll`. -/
lemma fillAll_apply (body : Nat → Pixel) (leds : Nat → Pixel) (j : Nat) :
    fillAll body leds j = if j < NUM_LEDS then body j else leds j :=
  foldl_setPix_range body leds NUM_LEDS j

/-- Every registry entry rewrites each in-range buffer element with a value
independent of the previous buffer contents. -/
lemma runPattern_indep (k : Nat) (hk : k < NUM_PATTERNS) (hue : Nat)
    (leds leds' : Nat → Pixel) (j : Nat) (hj : j < NUM_LEDS) :
    runPattern k hue leds j = runPattern k hue leds' j := by
  have hk6 : k < 6 := hk
  interval_cases k <;>
    simp [runPattern, red, multi, blue, green, white, rainbow, fillAll_apply, hj]

/-! ## Claim theorems -/

/-- Claim C1: each frame the function selector scans the 6 function-group
pins in increasing order and the first grounded (LOW) pin wins: if the
lowest grounded pin has offset `d` from `BASE_FSEL_PIN`, `functionSelect`
returns `d`, auto-cycle is disabled and the current pattern index becomes
`d`; if no pin is grounded, `functionSelect` reports no override (`-1`). -/
theorem c1_function_selector (read : Nat → Bool) (s : State) :
    ((∀ i, i < NUM_PATTERNS → read (BASE_FSEL_PIN + i) = true) →
      functionSelect read = -1)
    ∧ (∀ d, d < NUM_PATTERNS → read (BASE_FSEL_PIN + d) = false →
        (∀ e, e < d → read (BASE_FSEL_PIN + e) = true) →
        functionSelect read = (d : Int)
        ∧ ¬ cycleEnabled (loopSelect read s)
        ∧ (loopSelect read s).gCurrentPatternNumber = d) := by
  constructor
  · intro h
    exact functionSelect_none read h
  · intro d hd hlow hmin
    refine ⟨functionSelect_found read d hd hlow hmin, ?_, ?_⟩
    · rw [loopSelect_override read s d hd hlow hmin]
      simp [cycleEnabled]
    · rw [loopSelect_override read s d hd hlow hmin]

/-- Witness for C1: with pin 3 (offset 1) grounded the selector picks
index 1 and disables auto-cycle; with no pin grounded it returns `-1`. -/
theorem c1_witness :
    (functionSelect (fun p => p != 3) = (1 : Int)
      ∧ ¬ cycleEnabled (loopSelect (fun p => p != 3) initState)
      ∧ (loopSelect (fun p => p != 3) initState).gCurrentPatternNumber = 1)
    ∧ functionSelect (fun _ => true) = -1 :=
  ⟨(c1_function_selector (fun p => p != 3) initState).2 1 (by decide) (by decide)
      (by intro e he
          have h0 : e = 0 := by omega
          subst h0
          decide),
   (c1_function_selector (fun _ => true) initState).1 (fun i _ => rfl)⟩

/-- Claim C2: the per-frame brightness is a pure combinational function of
the two brightness pins: 63 with neither grounded, 127 with only
`BSEL_PIN1` grounded, 191 with only `BSEL_PIN2` grounded, 255 with both
grounded (grounded = reads `false`). -/
theorem c2_brightness (read : Nat → Bool) :
    loopBrightness read =
      match read BSEL_PIN1, read BSEL_PIN2 with
      | true, true => 63
      | false, true => 127
      | true, false => 191
      | false, false => 255 := by
  cases h1 : read BSEL_PIN1 <;> cases h2 : read BSEL_PIN2 <;>
    simp [loopBrightness, h1, h2]

/-- Counterexample for C3: the globals are initialized with the pattern
index 0 and hue 0 but with `gCycle = 0`, i.e. auto-cycle *disabled*, so the
claimed initial state (index 0, cycle enabled, hue 0) is false. -/
theorem c3_counterexample :
    ¬ (initState.gCurrentPatternNumber = 0 ∧ cycleEnabled initState
        ∧ initState.gHue = 0) := by
  decide

/-- Claim C3 (amended): at startup the selector state is initialized
exactly once to current pattern index 0, auto-cycle *disabled*
(`gCycle = 0`), and hue 0. -/
theorem c3_initial_state :
    initState.gCurrentPatternNumber = 0 ∧ initState.gCycle = 0
      ∧ ¬ cycleEnabled initState ∧ initState.gHue = 0 := by
  decide

/-- Claim C4: on a frame with no function pin grounded, if auto-cycle was
disabled the selection logic enables it, resets the index to 0 and runs one
advance, leaving the index at 1; if auto-cycle was already enabled the
frame leaves the selector state unchanged (the reset-and-advance fires only
on the disabled-to-enabled edge). -/
theorem c4_enable_edge (read : Nat → Bool) (s : State)
    (hno : ∀ i, i < NUM_PATTERNS → read (BASE_FSEL_PIN + i) = true) :
    (¬ cycleEnabled s → loopSelect read s = ⟨1, 1, s.gHue⟩)
    ∧ (cycleEnabled s → loopSelect read s = s) := by
  constructor
  · intro h
    have hc : s.gCycle = 0 := by
      by_contra hc
      exact h hc
    exact loopSelect_edge read s hno hc
  · intro h
    exact loopSelect_steady read s hno h

/-- Witness for C4: from the power-on state (cycle disabled) a no-override
frame lands on index 1 with the cycle flag set; from an already-cycling
state the frame is a no-op. -/
theorem c4_witness :
    loopSelect (fun _ => true) initState = ⟨1, 1, 0⟩
    ∧ loopSelect (fun _ => true) ⟨3, 1, 7⟩ = ⟨3, 1, 7⟩ :=
  ⟨(c4_enable_edge (fun _ => true) initState (fun _ _ => rfl)).1 (by decide),
   (c4_enable_edge (fun _ => true) ⟨3, 1, 7⟩ (fun _ _ => rfl)).2 (by decide)⟩

/-- Claim C5: the current pattern index is a valid registry index
(`< 6`) initially and after every frame — override assignment, enable
edge, and both timer firings included. -/
theorem c5_index_invariant :
    initState.gCurrentPatternNumber < NUM_PATTERNS
    ∧ ∀ (read : Nat → Bool) (hueDue patDue : Bool) (s : State)
        (leds : Nat → Pixel),
        s.gCurrentPatternNumber < NUM_PATTERNS →
        (loopFrame read hueDue patDue s leds).state.gCurrentPatternNumber
          < NUM_PATTERNS := by
  constructor
  · decide
  · intro read hueDue patDue s leds hs
    have hsel : (loopSelect read s).gCurrentPatternNumber < NUM_PATTERNS := by
      unfold loopSelect
      dsimp only
      split
      · split
        · simp [nextPattern, NUM_PATTERNS]
        · exact hs
      · rcases functionSelect_bound read with h1 | ⟨h2, h3⟩
        · simp_all
        · have h3' : functionSelect read < (6 : Int) := h3
          show (functionSelect read).toNat < 6
          omega
    cases hueDue <;> cases patDue
    · exact hsel
    · exact nextPattern_index_lt _ hsel
    · exact hsel
    · exact nextPattern_index_lt _ hsel

/-- Witness for C5: the invariant evaluated at the power-on state with both
timers due. -/
theorem c5_witness :
    (loopFrame (fun _ => true) true true initState
        (fun _ => ⟨0, 0, 0⟩)).state.gCurrentPatternNumber < NUM_PATTERNS :=
  c5_index_invariant.2 (fun _ => true) true true initState
    (fun _ => ⟨0, 0, 0⟩) (by decide)

/-- Claim C6: each firing of the 60-second timer calls `nextPattern`: with
auto-cycle enabled it changes only the index, to `(index + 1) % 6`, leaving
the cycle flag and hue untouched; with auto-cycle disabled it is a no-op on
the whole state (one call per firing, so nothing accumulates). -/
theorem c6_auto_advance (s : State) :
    (cycleEnabled s → nextPattern s =
      { s with gCurrentPatternNumber := (s.gCurrentPatternNumber + 1) % NUM_PATTERNS })
    ∧ (¬ cycleEnabled s → nextPattern s = s) := by
  constructor
  · intro h
    unfold nextPattern
    rw [if_neg h]
  · intro h
    have hc : s.gCycle = 0 := by
      by_contra hc
      exact h hc
    unfold nextPattern
    rw [if_pos hc]

/-- Witness for C6: a firing advances `⟨2, 1, 5⟩` to `⟨3, 1, 5⟩` and leaves
the disabled state `⟨2, 0, 5⟩` untouched. -/
theorem c6_witness :
    nextPattern ⟨2, 1, 5⟩ = ⟨3, 1, 5⟩ ∧ nextPattern ⟨2, 0, 5⟩ = ⟨2, 0, 5⟩ :=
  ⟨(c6_auto_advance ⟨2, 1, 5⟩).1 (by decide),
   (c6_auto_advance ⟨2, 0, 5⟩).2 (by decide)⟩

/-- Claim C7: each firing of the 20-millisecond timer increments the hue by
exactly 1 with 8-bit wraparound (255 goes to 0), touching nothing else and
regardless of the cycle flag or pattern index (the equation holds for every
state). -/
theorem c7_hue_timer (s : State) :
    hueTick s = ⟨s.gCurrentPatternNumber, s.gCycle, (s.gHue + 1) % 256⟩
    ∧ (s.gHue = 255 → (hueTick s).gHue = 0) := by
  refine ⟨rfl, ?_⟩
  intro h
  simp [hueTick, h]

/-- Witness for C7: a firing at hue 255 wraps to 0 while preserving the
other fields. -/
theorem c7_witness :
    hueTick ⟨4, 0, 255⟩ = ⟨4, 0, 0⟩ ∧ (hueTick ⟨4, 0, 255⟩).gHue = 0 :=
  ⟨(c7_hue_timer ⟨4, 0, 255⟩).1, (c7_hue_timer ⟨4, 0, 255⟩).2 rfl⟩

/-- Claim C8: every registered renderer (red, multi, blue, green, white,
rainbow) assigns all `NUM_LEDS = 50` buffer elements on one call: the
resulting value at each in-range index is independent of the prior buffer
contents, so no element retains its prior-frame value. -/
theorem c8_full_overwrite (k : Nat) (hk : k < NUM_PATTERNS) (hue : Nat)
    (leds leds' : Nat → Pixel) (j : Nat) (hj : j < NUM_LEDS) :
    runPattern k hue leds j = runPattern k hue leds' j :=
  runPattern_indep k hk hue leds leds' j hj

/-- Witness for C8: the red renderer writes the same pixel at index 0 over
two different prior buffers. -/
theorem c8_witness :
    runPattern 0 0 (fun _ => ⟨1, 1, 1⟩) 0 = runPattern 0 0 (fun _ => ⟨2, 2, 2⟩) 0 :=
  c8_full_overwrite 0 (by decide) 0 (fun _ => ⟨1, 1, 1⟩) (fun _ => ⟨2, 2, 2⟩) 0
    (by decide)

/-- Claim C9: because `gCycle` starts at 0, the first loop iteration with
no function pin grounded takes the enable edge and sets the index to 1, so
the first frame renders registry entry 1 (`multi`), not entry 0 (`red`);
the two renderers differ already at pixel 0. -/
theorem c9_first_render (read : Nat → Bool)
    (hno : ∀ i, i < NUM_PATTERNS → read (BASE_FSEL_PIN + i) = true)
    (hueDue patDue : Bool) (leds : Nat → Pixel) :
    (loopSelect read initState).gCurrentPatternNumber = 1
    ∧ (loopFrame read hueDue patDue initState leds).leds = multi leds
    ∧ multi leds 0 ≠ red leds 0 := by
  have hsel : loopSelect read initState = ⟨1, 1, 0⟩ :=
    loopSelect_edge read initState hno rfl
  refine ⟨by rw [hsel], ?_, ?_⟩
  · unfold loopFrame
    dsimp only
    rw [hsel]
    rfl
  · have h0 : (0 : Nat) < NUM_LEDS := by decide
    rw [multi, red, fillAll_apply, fillAll_apply, if_pos h0, if_pos h0]
    decide

/-- Witness for C9: the first no-jumper frame from power-on renders the
`multi` pattern. -/
theorem c9_witness :
    (loopSelect (fun _ => true) initState).gCurrentPatternNumber = 1
    ∧ (loopFrame (fun _ => true) false false initState
        (fun _ => ⟨7, 7, 7⟩)).leds = multi (fun _ => ⟨7, 7, 7⟩)
    ∧ multi (fun _ => ⟨7, 7, 7⟩) 0 ≠ red (fun _ => ⟨7, 7, 7⟩) 0 :=
  c9_first_render (fun _ => true) (fun _ _ => rfl) false false (fun _ => ⟨7, 7, 7⟩)

/-- Claim C10: the hue has a single writer. The selection logic and
`nextPattern` preserve `gHue`; a full frame changes `gHue` exactly when the
20-millisecond timer is due, and then only by the 8-bit increment.
(Renderers are buffer transforms in this model — `rainbow` reads the hue as
an argument and none can write it.) -/
theorem c10_single_hue_writer (read : Nat → Bool) (s : State)
    (patDue : Bool) (leds : Nat → Pixel) :
    (loopSelect read s).gHue = s.gHue
    ∧ (nextPattern s).gHue = s.gHue
    ∧ (loopFrame read false patDue s leds).state.gHue = s.gHue
    ∧ (loopFrame read true patDue s leds).state.gHue = (s.gHue + 1) % 256 := by
  refine ⟨loopSelect_gHue read s, nextPattern_gHue s, ?_, ?_⟩
  · cases patDue
    · exact loopSelect_gHue read s
    · show (nextPattern (loopSelect read s)).gHue = s.gHue
      rw [nextPattern_gHue, loopSelect_gHue]
  · cases patDue
    · show ((loopSelect read s).gHue + 1) % 256 = (s.gHue + 1) % 256
      rw [loopSelect_gHue]
    · show (nextPattern (hueTick (loopSelect read s))).gHue = (s.gHue + 1) % 256
      rw [nextPattern_gHue]
      show ((loopSelect read s).gHue + 1) % 256 = (s.gHue + 1) % 256
      rw [loopSelect_gHue]

end PixelController
